import Mathlib

/-!
Shallow embedding of the reliability platform's computational engines
(burn-rate computation and risk classification, SLO budget accounting,
exhaustion forecasting, the release gate, alert cooldown and metric
ingestion), together with theorems checking the specification's claims
against the code.  Machine floats of the source are modelled as exact
rationals; timestamps are rationals counting minutes; `round(x, k)` of
the source is `roundTo k`.
-/

namespace Reliability

/-- Risk levels, ordered SAFE < OBSERVE < DANGER < FREEZE. -/
inductive RiskLevel where
  | safe
  | observe
  | danger
  | freeze
deriving DecidableEq, Repr

/-- Numeric severity for comparing risk levels
(source: `BurnRateEngine._risk_severity`). -/
def risk_severity : RiskLevel → Nat
  | RiskLevel.safe => 0
  | RiskLevel.observe => 1
  | RiskLevel.danger => 2
  | RiskLevel.freeze => 3

/-- Application settings (source: `app/core/config.py`, class `Settings`),
restricted to the fields the engines read.  Defaults are the source defaults. -/
structure Settings where
  BURN_RATE_SAFE_THRESHOLD : ℚ := 1
  BURN_RATE_OBSERVE_THRESHOLD : ℚ := 3/2
  BURN_RATE_DANGER_THRESHOLD : ℚ := 2
  BURN_RATE_FREEZE_THRESHOLD : ℚ := 3
  ERROR_BUDGET_OBSERVE_THRESHOLD : ℚ := 70
  ERROR_BUDGET_DANGER_THRESHOLD : ℚ := 85
  ERROR_BUDGET_FREEZE_THRESHOLD : ℚ := 95
  RELEASE_GATE_BURN_RATE_THRESHOLD : ℚ := 2
  RELEASE_GATE_BUDGET_THRESHOLD : ℚ := 90
  ALERT_COOLDOWN_MINUTES : ℚ := 15
deriving DecidableEq, Repr

/-- The settings instance with all source defaults. -/
def defaultSettings : Settings := {}

/-- A registered service (source: model `Service`). -/
structure Service where
  id : Nat
  name : String
  is_active : Bool
deriving DecidableEq, Repr

/-- An SLO target row (source: model `SLOTarget`), restricted to fields the
engines read. -/
structure SLOTarget where
  service_id : Nat
  name : String
  target_value : ℚ
  window_days : Nat
  critical_burn_rate : ℚ
  is_active : Bool
deriving DecidableEq, Repr

/-- A metric row (source: model `Metric`).  `timestamp` counts minutes. -/
structure Metric where
  service_id : Nat
  timestamp : ℚ
  total_requests : Int
  error_count : Int
  success_rate : Option ℚ
deriving DecidableEq, Repr

/-- A burn-history row (source: model `BurnHistory`), restricted to the
fields the forecast trend reads. -/
structure BurnHistoryRow where
  service_id : Nat
  timestamp : ℚ
  window_minutes : ℚ
  burn_rate : ℚ
deriving DecidableEq, Repr

/-- A deployment audit row (source: model `Deployment`). -/
structure Deployment where
  service_id : Nat
  deployment_id : String
  version : Option String
  requested_by : Option String
  allowed : Bool
  blocked_reason : Option String
  risk_level_at_request : RiskLevel
  burn_rate_at_request : ℚ
  status : String
deriving DecidableEq, Repr

/-- An alert row (source: model `Alert`).  `alert_metadata` is the JSON
column of that name, abstracted to the `alert_type` tag it would carry
(`none` for an absent JSON value); the interpolated title and message text
is abstracted to the template key. -/
structure AlertRow where
  service_id : Nat
  timestamp : ℚ
  severity : String
  channel : String
  title : String
  message : String
  alert_metadata : Option String
deriving DecidableEq, Repr

/-- The persistent store the engines read and write. -/
structure DB where
  services : List Service
  slo_targets : List SLOTarget
  metrics : List Metric
  burn_history : List BurnHistoryRow
  deployments : List Deployment
  alerts : List AlertRow
deriving DecidableEq, Repr

/-- `round(x, dp)` of the source: round to `dp` decimal places. -/
def roundTo (dp : Nat) (q : ℚ) : ℚ :=
  ((round (q * (10 : ℚ) ^ dp) : ℤ) : ℚ) / (10 : ℚ) ^ dp

/-- Risk classification (source: `BurnRateEngine._classify_risk`). -/
def classify_risk (st : Settings) (burn_rate budget_consumed : ℚ) : RiskLevel :=
  if burn_rate ≥ st.BURN_RATE_FREEZE_THRESHOLD ∨
      budget_consumed ≥ st.ERROR_BUDGET_FREEZE_THRESHOLD then RiskLevel.freeze
  else if burn_rate ≥ st.BURN_RATE_DANGER_THRESHOLD ∨
      budget_consumed ≥ st.ERROR_BUDGET_DANGER_THRESHOLD then RiskLevel.danger
  else if burn_rate ≥ st.BURN_RATE_OBSERVE_THRESHOLD ∨
      budget_consumed ≥ st.ERROR_BUDGET_OBSERVE_THRESHOLD then RiskLevel.observe
  else RiskLevel.safe

/-- Fixed per-level color (source: `RISK_THRESHOLDS` in `config.py`). -/
def risk_color : RiskLevel → String
  | RiskLevel.safe => "#22c55e"
  | RiskLevel.observe => "#eab308"
  | RiskLevel.danger => "#f97316"
  | RiskLevel.freeze => "#ef4444"

/-- Fixed per-level action string (source: `RISK_THRESHOLDS` in `config.py`). -/
def risk_action : RiskLevel → String
  | RiskLevel.safe => "Normal operations"
  | RiskLevel.observe => "Increased monitoring"
  | RiskLevel.danger => "Limit non-critical changes"
  | RiskLevel.freeze => "Block all deployments"

/-- Result of a burn-rate computation (source: schema `BurnRateComputation`). -/
structure BurnRateComputation where
  service_id : Nat
  window_minutes : ℚ
  current_error_rate : ℚ
  allowed_error_rate : ℚ
  burn_rate : ℚ
  error_budget_consumed : ℚ
  error_budget_remaining : ℚ
  risk_level : RiskLevel
  risk_color : String
  risk_action : String
deriving DecidableEq, Repr

/-- The metric rows of a service whose timestamps fall in
[now − window, now] (source: the metric query in
`BurnRateEngine.compute_burn_rate`). -/
def metrics_in_window (db : DB) (now : ℚ) (service_id : Nat)
    (window_minutes : ℚ) : List Metric :=
  db.metrics.filter (fun m =>
    m.service_id == service_id &&
    decide (now - window_minutes ≤ m.timestamp) && decide (m.timestamp ≤ now))

/-- Body of `BurnRateEngine.compute_burn_rate` after the service lookup
succeeded. -/
def compute_burn_rate_aux (st : Settings) (db : DB) (now : ℚ)
    (service : Service) (window_minutes : ℚ) : BurnRateComputation :=
  let slo_target := db.slo_targets.find? (fun t =>
    t.service_id == service.id && t.name == "availability" && t.is_active)
  let target_value : ℚ :=
    match slo_target with
    | none => 999/10
    | some t => t.target_value
  let allowed_error_rate : ℚ := (100 - target_value) / 100
  let ms := metrics_in_window db now service.id window_minutes
  let total_requests : Int := (ms.map (fun m => m.total_requests)).sum
  let error_count : Int := (ms.map (fun m => m.error_count)).sum
  let current_error_rate : ℚ :=
    if total_requests > 0 then (error_count : ℚ) / (total_requests : ℚ) else 0
  let burn_rate : ℚ :=
    if allowed_error_rate > 0 then current_error_rate / allowed_error_rate else 0
  let total_budget : ℚ := (total_requests : ℚ) * allowed_error_rate
  let consumed_percentage : ℚ :=
    if total_budget > 0 then min (((error_count : ℚ) / total_budget) * 100) 100 else 0
  let remaining_percentage : ℚ :=
    if total_budget > 0 then max (100 - consumed_percentage) 0 else 100
  let risk_level := classify_risk st burn_rate consumed_percentage
  { service_id := service.id
    window_minutes := window_minutes
    current_error_rate := roundTo 6 current_error_rate
    allowed_error_rate := roundTo 6 allowed_error_rate
    burn_rate := roundTo 3 burn_rate
    error_budget_consumed := roundTo 2 consumed_percentage
    error_budget_remaining := roundTo 2 remaining_percentage
    risk_level := risk_level
    risk_color := risk_color risk_level
    risk_action := risk_action risk_level }

/-- `BurnRateEngine.compute_burn_rate`: raises (`.error`) when the service id
is absent, otherwise computes the window's burn-rate record. -/
def compute_burn_rate (st : Settings) (db : DB) (now : ℚ) (service_id : Nat)
    (window_minutes : ℚ) : Except String BurnRateComputation :=
  match db.services.find? (fun s => s.id == service_id) with
  | none => .error ("Service " ++ toString service_id ++ " not found")
  | some service => .ok (compute_burn_rate_aux st db now service window_minutes)

/-- The canonical windows with weights
(source: `BurnRateEngine.WINDOW_CONFIGS`). -/
def WINDOW_CONFIGS : List (ℚ × ℚ) := [(5, 3/10), (60, 2/5), (1440, 3/10)]

/-- `BurnRateEngine.compute_all_windows` after the service lookup succeeded. -/
def compute_all_windows (st : Settings) (db : DB) (now : ℚ)
    (service : Service) : List BurnRateComputation :=
  WINDOW_CONFIGS.map (fun w => compute_burn_rate_aux st db now service w.1)

/-- `BurnRateEngine.get_weighted_burn_rate`: weight-normalized mean burn rate
across the canonical windows and the most severe per-window risk. -/
def get_weighted_burn_rate (st : Settings) (db : DB) (now : ℚ)
    (service_id : Nat) : Except String (ℚ × RiskLevel) :=
  match db.services.find? (fun s => s.id == service_id) with
  | none => .error ("Service " ++ toString service_id ++ " not found")
  | some service =>
    let computations := compute_all_windows st db now service
    let weighted_burn :=
      ((computations.zip WINDOW_CONFIGS).map (fun p => p.1.burn_rate * p.2.2)).sum
    let total_weight := (WINDOW_CONFIGS.map (fun w => w.2)).sum
    let worst_risk := computations.foldl
      (fun w c => if risk_severity c.risk_level > risk_severity w then c.risk_level else w)
      RiskLevel.safe
    let final_burn := if total_weight > 0 then weighted_burn / total_weight else 0
    .ok (roundTo 3 final_burn, worst_risk)

/-- Result of a trend regression (source: `ForecastModule._calculate_trend`). -/
structure TrendData where
  slope : ℚ
  direction : String
  confidence : String
  r_squared : ℚ
  data_points : Nat
deriving DecidableEq, Repr

/-- Insert a burn-history row into a timestamp-sorted list. -/
def insertSorted (x : BurnHistoryRow) : List BurnHistoryRow → List BurnHistoryRow
  | [] => [x]
  | y :: ys =>
    if x.timestamp ≤ y.timestamp then x :: y :: ys else y :: insertSorted x ys

/-- Sort burn-history rows by ascending timestamp (the `order_by(timestamp)`
of the trend query). -/
def sortByTimestamp (l : List BurnHistoryRow) : List BurnHistoryRow :=
  l.foldr insertSorted []

/-- The last 6 hours of 60-minute-window burn history for a service, in
ascending timestamp order (source: the history query in
`ForecastModule._calculate_trend`). -/
def trend_history (db : DB) (now : ℚ) (service_id : Nat) : List BurnHistoryRow :=
  sortByTimestamp (db.burn_history.filter (fun h =>
    h.service_id == service_id && h.window_minutes == 60 &&
    decide (now - 360 ≤ h.timestamp)))

/-- `ForecastModule._calculate_trend`: least-squares slope over (hours since
first point, burn_rate), with direction and confidence classification.
Returns `none` when fewer than 3 points exist. -/
def calculate_trend (db : DB) (now : ℚ) (service_id : Nat) : Option TrendData :=
  let history := trend_history db now service_id
  if history.length < 3 then none
  else
    let base := ((history.map (fun h => h.timestamp)).headD 0)
    let xs := history.map (fun h => (h.timestamp - base) / 60)
    let ys := history.map (fun h => h.burn_rate)
    let n : ℚ := (history.length : ℚ)
    let sx := xs.sum
    let sy := ys.sum
    let sxy := ((xs.zip ys).map (fun p => p.1 * p.2)).sum
    let sxx := (xs.map (fun x => x * x)).sum
    let slope : ℚ := (n * sxy - sx * sy) / (n * sxx - sx * sx)
    let y_mean : ℚ := sy / n
    let x_mean : ℚ := sx / n
    let y_intercept : ℚ := y_mean - slope * x_mean
    let ss_res : ℚ := ((xs.zip ys).map (fun p => (p.2 - (slope * p.1 + y_intercept)) ^ 2)).sum
    let ss_tot : ℚ := (ys.map (fun y => (y - y_mean) ^ 2)).sum
    let r_squared : ℚ := if ss_tot > 0 then 1 - ss_res / ss_tot else 0
    let direction :=
      if slope > 1/10 then "increasing"
      else if slope < -(1/10) then "decreasing"
      else "stable"
    let confidence :=
      if r_squared > 7/10 ∧ history.length ≥ 5 then "high"
      else if r_squared > 2/5 ∧ history.length ≥ 3 then "medium"
      else "low"
    some { slope := slope, direction := direction, confidence := confidence,
           r_squared := r_squared, data_points := history.length }

/-- The burn rate fed into the exhaustion formula (source: the trend
adjustment in `ForecastModule.forecast_exhaustion`): the current rate is
bumped by the slope whenever the slope is positive. -/
def burn_rate_for_forecast (current_rate : ℚ) (trend_data : Option TrendData) : ℚ :=
  match trend_data with
  | none => current_rate
  | some t => if t.slope > 0 then current_rate + t.slope else current_rate

/-- The time-to-exhaustion computation of `ForecastModule.forecast_exhaustion`:
`(R / 100) * window_hours / B` rounded to 2 dp when `B > 0` and `R > 0`,
`0` when `R ≤ 0`, otherwise undefined. -/
def compute_time_to_exhaustion (burn_rate remaining_budget window_hours : ℚ) :
    Option ℚ :=
  if burn_rate > 0 ∧ remaining_budget > 0 then
    some (roundTo 2 (remaining_budget / 100 * window_hours / burn_rate))
  else if remaining_budget ≤ 0 then some 0
  else none

/-- A forecast result (source: schema `ForecastResponse`), restricted to the
computed fields; the projected wall-clock exhaustion instant and the
human-readable message are presentation and not modelled. -/
structure ForecastResult where
  service_id : Nat
  current_burn_rate : ℚ
  error_budget_remaining : ℚ
  time_to_exhaustion_hours : Option ℚ
  confidence_level : String
  burn_rate_trend : String
  trend_slope : ℚ
deriving DecidableEq, Repr

/-- `ForecastModule.forecast_exhaustion` (with `use_historical_trend = True`,
its default): raises when the service id is absent, otherwise projects
time-to-exhaustion from the 60-minute burn computation and the history trend. -/
def forecast_exhaustion (st : Settings) (db : DB) (now : ℚ) (service_id : Nat) :
    Except String ForecastResult :=
  match db.services.find? (fun s => s.id == service_id) with
  | none => .error ("Service " ++ toString service_id ++ " not found")
  | some service =>
    let current_burn := compute_burn_rate_aux st db now service 60
    let slo_target := db.slo_targets.find? (fun t =>
      t.service_id == service_id && t.name == "availability" && t.is_active)
    let window_days : ℚ :=
      match slo_target with
      | some t => (t.window_days : ℚ)
      | none => 30
    let window_hours := window_days * 24
    let trend_data := calculate_trend db now service_id
    let trend_direction :=
      match trend_data with
      | none => "stable"
      | some t => t.direction
    let trend_slope : ℚ :=
      match trend_data with
      | none => 0
      | some t => t.slope
    let confidence :=
      match trend_data with
      | none => "medium"
      | some t => t.confidence
    let rate := burn_rate_for_forecast current_burn.burn_rate trend_data
    let remaining_budget := current_burn.error_budget_remaining
    .ok { service_id := service_id
          current_burn_rate := current_burn.burn_rate
          error_budget_remaining := remaining_budget
          time_to_exhaustion_hours :=
            compute_time_to_exhaustion rate remaining_budget window_hours
          confidence_level := confidence
          burn_rate_trend := trend_direction
          trend_slope := roundTo 4 trend_slope }

/-- A release-gate request (source: schema `ReleaseCheckRequest`). -/
structure ReleaseCheckRequest where
  service_name : String
  deployment_id : String
  version : Option String
  requested_by : Option String
  override : Bool
  override_reason : Option String
deriving DecidableEq, Repr

/-- A release-gate response (source: schema `ReleaseCheckResponse`),
without the wall-clock audit timestamps. -/
structure ReleaseCheckResponse where
  allowed : Bool
  reason : String
  service_name : String
  deployment_id : String
  current_risk_level : RiskLevel
  current_burn_rate : ℚ
  error_budget_remaining : ℚ
  time_to_exhaustion_hours : Option ℚ
  recommendations : List String
  checked_by : String
deriving DecidableEq, Repr

/-- `ReleaseGateController._evaluate_gate`: the pure decision procedure.
Returns (allowed, reason, recommendations).  Number interpolation inside
reason strings is modelled with `toString`. -/
def evaluate_gate (st : Settings) (burn_rate : ℚ) (risk_level : RiskLevel)
    (budget_remaining : ℚ) (time_to_exhaustion : Option ℚ)
    (override : Bool) (override_reason : Option String) :
    Bool × String × List String :=
  let reason_text := override_reason.getD ""
  if risk_level = RiskLevel.freeze then
    if override ∧ reason_text ≠ "" then
      (true,
       "OVERRIDE: Deployment allowed despite FREEZE state. Reason: " ++ reason_text,
       ["Deployment approved via override - monitor closely"])
    else
      (false,
       "Deployment blocked: System is in FREEZE state due to critical reliability issues",
       ["Investigate and resolve active incidents before deploying",
        "Error budget is critically low or exhausted",
        "Consider rolling back recent changes"])
  else if risk_level = RiskLevel.danger then
    let recommendations := ["System is in DANGER state - consider waiting"]
    if override ∧ reason_text ≠ "" then
      (true,
       "OVERRIDE: Deployment allowed despite DANGER state. Reason: " ++ reason_text,
       recommendations ++ ["Monitor deployment closely and be ready to rollback"])
    else
      (false,
       "Deployment blocked: System is in DANGER state with elevated error rates",
       recommendations ++
        ["Error budget is running low",
         "Wait for system to stabilize or provide override with justification"])
  else if burn_rate > st.RELEASE_GATE_BURN_RATE_THRESHOLD then
    (false,
     "Deployment blocked: Burn rate (" ++ toString burn_rate ++
       "x) exceeds threshold (" ++ toString st.RELEASE_GATE_BURN_RATE_THRESHOLD ++ "x)",
     ["Current error rate is too high for safe deployment",
      "Investigate recent changes that may have caused elevated errors"])
  else
    let budget_consumed := 100 - budget_remaining
    if budget_consumed > st.RELEASE_GATE_BUDGET_THRESHOLD then
      (false,
       "Deployment blocked: Error budget " ++ toString budget_consumed ++
         " consumed exceeds threshold (" ++ toString st.RELEASE_GATE_BUDGET_THRESHOLD ++ ")",
       ["Error budget is nearly exhausted",
        "Prioritize reliability improvements before new deployments"])
    else
      let recommendations : List String :=
        match time_to_exhaustion with
        | some t =>
          if t < 4 then
            ["Warning: Error budget will be exhausted in ~" ++ toString t ++ " hours"]
          else []
        | none => []
      if risk_level = RiskLevel.observe then
        (true,
         "Deployment allowed with caution: System reliability is being observed",
         recommendations ++
          ["System is in OBSERVE state - increased monitoring recommended",
           "Consider smaller deployment batches"])
      else
        (true,
         "Deployment allowed: System reliability is healthy",
         if recommendations = [] then ["System is operating normally"]
         else recommendations)

/-- `ReleaseGateController._record_deployment`.  `fresh_id` models the
`str(uuid.uuid4())` generated when the request carries an empty
deployment id (a UUID string is 36 characters, never empty). -/
def record_deployment (db : DB) (service_id : Nat) (deployment_id : String)
    (version requested_by : Option String) (allowed : Bool) (reason : String)
    (risk_level : RiskLevel) (burn_rate : ℚ) (fresh_id : String) : DB :=
  let final_id := if deployment_id = "" then fresh_id else deployment_id
  let d : Deployment :=
    { service_id := service_id
      deployment_id := final_id
      version := version
      requested_by := requested_by
      allowed := allowed
      blocked_reason := if allowed then none else some reason
      risk_level_at_request := risk_level
      burn_rate_at_request := burn_rate
      status := if allowed then "approved" else "rejected" }
  { db with deployments := db.deployments ++ [d] }

/-- The fixed response of `check_release` when the service name is unknown. -/
def service_not_found_response (request : ReleaseCheckRequest) :
    ReleaseCheckResponse :=
  { allowed := false
    reason := "Service " ++ request.service_name ++ " not found"
    service_name := request.service_name
    deployment_id := request.deployment_id
    current_risk_level := RiskLevel.freeze
    current_burn_rate := 0
    error_budget_remaining := 0
    time_to_exhaustion_hours := none
    recommendations := ["Register the service before deploying"]
    checked_by := "system" }

/-- `ReleaseGateController.check_release`: evaluate the gate and record the
deployment attempt.  The `.error` fallbacks mirror exception propagation of
the engine calls and are unreachable once the service lookup succeeded. -/
def check_release (st : Settings) (db : DB) (now : ℚ) (fresh_id : String)
    (request : ReleaseCheckRequest) : ReleaseCheckResponse × DB :=
  match db.services.find? (fun s => s.name == request.service_name) with
  | none => (service_not_found_response request, db)
  | some service =>
    match compute_burn_rate st db now service.id 60 with
    | .error _ => (service_not_found_response request, db)
    | .ok burn_computation =>
      match get_weighted_burn_rate st db now service.id with
      | .error _ => (service_not_found_response request, db)
      | .ok (weighted_burn, worst_risk) =>
        match forecast_exhaustion st db now service.id with
        | .error _ => (service_not_found_response request, db)
        | .ok forecast =>
          let decision := evaluate_gate st weighted_burn worst_risk
            burn_computation.error_budget_remaining
            forecast.time_to_exhaustion_hours
            request.override request.override_reason
          let db2 := record_deployment db service.id request.deployment_id
            request.version request.requested_by decision.1 decision.2.1
            worst_risk weighted_burn fresh_id
          ({ allowed := decision.1
             reason := decision.2.1
             service_name := service.name
             deployment_id := request.deployment_id
             current_risk_level := worst_risk
             current_burn_rate := weighted_burn
             error_budget_remaining := burn_computation.error_budget_remaining
             time_to_exhaustion_hours := forecast.time_to_exhaustion_hours
             recommendations := decision.2.2
             checked_by := request.requested_by.getD "system" }, db2)

/-- Severity of each alert template key (source: `AlertManager.ALERT_TEMPLATES`);
`none` for an unknown template key. -/
def template_severity (alert_type : String) : Option String :=
  if alert_type = "budget_exhausted" then some "emergency"
  else if alert_type = "budget_critical" then some "critical"
  else if alert_type = "burn_rate_high" then some "warning"
  else if alert_type = "risk_escalation" then some "warning"
  else if alert_type = "deployment_blocked" then some "info"
  else if alert_type = "recovery" then some "info"
  else none

set_option linter.unusedVariables false in
/-- `AlertManager._is_in_cooldown`: the filter is meant to scan for a
recent alert matching `service_id`, `timestamp ≥ now − ALERT_COOLDOWN_MINUTES`
and the alert_type tag, but its third conjunct probes
`Alert.metadata.contains(...)` — on a SQLAlchemy declarative class
`metadata` is the reserved table-registry MetaData object (the mapped JSON
column is named `alert_metadata`), and MetaData has no `contains` method —
so building the query raises AttributeError on every call, before the
store is consulted. -/
def is_in_cooldown (st : Settings) (db : DB) (now : ℚ) (service_id : Nat)
    (alert_type : String) : Except String Bool :=
  Except.error "AttributeError: MetaData object has no attribute contains"

/-- `AlertManager.create_alert`: raises on an unknown template key;
otherwise the cooldown check runs first, and since `_is_in_cooldown`
raises on every call that exception propagates before any row is written.
The suppression branch (`none`, store untouched) and the persistence
branch translate the rest of the source body, reachable only if the
cooldown check returned; note that the constructed row passes
`metadata=...` to the constructor, which shadows the class attribute and
never populates the `alert_metadata` column, so a persisted row would
carry no tag. -/
def create_alert (st : Settings) (db : DB) (now : ℚ) (service_id : Nat)
    (alert_type : String) (channel : String) :
    Except String (DB × Option AlertRow) :=
  match template_severity alert_type with
  | none => .error ("Unknown alert type: " ++ alert_type)
  | some severity =>
    match is_in_cooldown st db now service_id alert_type with
    | .error e => .error e
    | .ok true => .ok (db, none)
    | .ok false =>
      let alert : AlertRow :=
        { service_id := service_id
          timestamp := now
          severity := severity
          channel := channel
          title := alert_type
          message := alert_type
          alert_metadata := none }
      .ok ({ db with alerts := db.alerts ++ [alert] }, some alert)

/-- One guarded `create_alert` call inside `evaluate_and_alert`: the pair of
the resulting store and the alert appended (if any); on a raised error the
store is unchanged and nothing accumulates (the `except` clause of the
caller). -/
def create_step (st : Settings) (db : DB) (now : ℚ) (service_id : Nat)
    (alert_type channel : String) : DB × Option AlertRow :=
  match create_alert st db now service_id alert_type channel with
  | .ok p => p
  | .error _ => (db, none)

/-- `AlertManager.evaluate_and_alert`: evaluate the 60-minute burn state and
generate the triggered alerts (budget_exhausted, budget_critical,
burn_rate_high), each gated by the cooldown. -/
def evaluate_and_alert (st : Settings) (db : DB) (now : ℚ) (service_id : Nat) :
    DB × List AlertRow :=
  match db.services.find? (fun s => s.id == service_id) with
  | none => (db, [])
  | some _ =>
    match compute_burn_rate st db now service_id 60 with
    | .error _ => (db, [])
    | .ok burn =>
      let s1 : DB × Option AlertRow :=
        if burn.error_budget_remaining ≤ 0 then
          create_step st db now service_id "budget_exhausted" "slack"
        else if burn.error_budget_remaining < 15 then
          create_step st db now service_id "budget_critical" "slack"
        else (db, none)
      let s2 : DB × Option AlertRow :=
        if burn.burn_rate ≥ 2 then
          create_step st s1.1 now service_id "burn_rate_high" "ui"
        else (s1.1, none)
      (s2.1, s1.2.toList ++ s2.2.toList)

/-- A sequence of `evaluate_and_alert` calls on one service at the given
times, threading the store. -/
def run_alert_calls (st : Settings) (db : DB) (times : List ℚ)
    (service_id : Nat) : DB :=
  times.foldl (fun d t => (evaluate_and_alert st d t service_id).1) db

/-- Number of persisted alerts for a (service, alert_type) pair, matching
the tag in the `alert_metadata` column. -/
def count_alerts (db : DB) (service_id : Nat) (alert_type : String) : Nat :=
  (db.alerts.filter (fun a =>
    a.service_id == service_id && a.alert_metadata == some alert_type)).length

/-- A raw metric data point (source: schema `MetricSnapshot`). -/
structure MetricSnapshot where
  service : String
  timestamp : ℚ
  total_requests : Int
  error_count : Int
deriving DecidableEq, Repr

/-- The schema validation applied to a snapshot before ingestion
(source: the `Field(ge=0)` bounds on `MetricSnapshot`). -/
def validate_snapshot (m : MetricSnapshot) : Bool :=
  decide (0 ≤ m.total_requests) && decide (0 ≤ m.error_count)

/-- Next autoincrement service id. -/
def next_service_id (db : DB) : Nat :=
  (db.services.map (fun s => s.id)).foldl Nat.max 0 + 1

/-- One iteration of the ingestion loop in
`MetricsIngestionService.ingest_metrics`: find or create the service, then
append the metric row with its derived success rate. -/
def ingest_one (db : DB) (m : MetricSnapshot) : DB :=
  let found := db.services.find? (fun s => s.name == m.service)
  let service : Service :=
    match found with
    | some s => s
    | none => { id := next_service_id db, name := m.service, is_active := true }
  let db1 : DB :=
    match found with
    | some _ => db
    | none => { db with services := db.services ++ [service] }
  let success_rate : Option ℚ :=
    if m.total_requests > 0 then
      some (((m.total_requests : ℚ) - (m.error_count : ℚ)) / (m.total_requests : ℚ) * 100)
    else none
  { db1 with metrics := db1.metrics ++
      [{ service_id := service.id
         timestamp := m.timestamp
         total_requests := m.total_requests
         error_count := m.error_count
         success_rate := success_rate }] }

/-- `MetricsIngestionService.ingest_metrics`: ingest a batch, returning the
new store with (processed, errors) counts. -/
def ingest_metrics (db : DB) (ms : List MetricSnapshot) : DB × Nat × Nat :=
  ms.foldl (fun acc m => (ingest_one acc.1 m, acc.2.1 + 1, acc.2.2)) (db, 0, 0)

/-- Consumed-budget percentages of `SLOComputationEngine._compute_single_slo`. -/
structure SLOComputationResult where
  current_value : ℚ
  is_meeting_slo : Bool
  total_budget : ℚ
  consumed_budget : ℚ
  consumed_percentage : ℚ
  remaining_percentage : ℚ
deriving DecidableEq, Repr

/-- `SLOComputationEngine._compute_single_slo`, restricted to the
aggregate-window fields (the rolling-window availabilities are context only). -/
def compute_single_slo (db : DB) (now : ℚ) (service : Service)
    (slo_target : SLOTarget) : SLOComputationResult :=
  let window_start := now - (slo_target.window_days : ℚ) * 1440
  let ms := db.metrics.filter (fun m =>
    m.service_id == service.id &&
    decide (window_start ≤ m.timestamp) && decide (m.timestamp ≤ now))
  let total_requests : Int := (ms.map (fun m => m.total_requests)).sum
  let error_count : Int := (ms.map (fun m => m.error_count)).sum
  let current_value : ℚ :=
    if total_requests > 0 then
      ((total_requests : ℚ) - (error_count : ℚ)) / (total_requests : ℚ) * 100
    else 100
  let slo_target_fraction := slo_target.target_value / 100
  let allowed_error_rate : ℚ := 1 - slo_target_fraction
  let total_budget : ℚ :=
    if total_requests > 0 then (total_requests : ℚ) * allowed_error_rate else 0
  let consumed_budget : ℚ := (error_count : ℚ)
  let consumed_percentage : ℚ :=
    if total_budget > 0 then min ((consumed_budget / total_budget) * 100) 100 else 0
  let remaining_percentage : ℚ :=
    if total_budget > 0 then max (100 - consumed_percentage) 0 else 100
  { current_value := roundTo 4 current_value
    is_meeting_slo := decide (current_value ≥ slo_target.target_value)
    total_budget := roundTo 2 total_budget
    consumed_budget := consumed_budget
    consumed_percentage := roundTo 2 consumed_percentage
    remaining_percentage := roundTo 2 remaining_percentage }

/-- Modelled from the spec: the per-dimension risk level implied by
burn_rate alone, with the inclusive-lower default cutoffs of the
classification table. -/
def spec_level_by_burn (burn_rate : ℚ) : RiskLevel :=
  if burn_rate ≥ 3 then RiskLevel.freeze
  else if burn_rate ≥ 2 then RiskLevel.danger
  else if burn_rate ≥ 3/2 then RiskLevel.observe
  else RiskLevel.safe

/-- Modelled from the spec: the per-dimension risk level implied by
budget_consumed alone, with the inclusive-lower default cutoffs of the
classification table. -/
def spec_level_by_budget (budget_consumed : ℚ) : RiskLevel :=
  if budget_consumed ≥ 95 then RiskLevel.freeze
  else if budget_consumed ≥ 85 then RiskLevel.danger
  else if budget_consumed ≥ 70 then RiskLevel.observe
  else RiskLevel.safe

/-- Modelled from the spec: the more severe of two risk levels. -/
def spec_max_risk (a b : RiskLevel) : RiskLevel :=
  if risk_severity a ≤ risk_severity b then b else a

/-! Concrete stores and requests used to exercise the engines. -/

/-- A registered example service. -/
def exService : Service := { id := 1, name := "svc", is_active := true }

/-- The empty store. -/
def exEmptyDB : DB :=
  { services := []
    slo_targets := []
    metrics := []
    burn_history := []
    deployments := []
    alerts := [] }

/-- A store holding one registered service and no data. -/
def exServiceDB : DB := { exEmptyDB with services := [exService] }

/-- A store whose single metric batch puts the service at burn rate 0.9 and
90 percent budget consumption in every window: composite risk DANGER. -/
def exDangerDB : DB := { exEmptyDB with
  services := [exService]
  metrics := [{ service_id := 1
                timestamp := 0
                total_requests := 100000
                error_count := 90
                success_rate := none }] }

/-- A store with three hourly burn-history points of slopes 0.01:
a positive least-squares slope below the 0.1 direction cutoff. -/
def exTrendDB : DB := { exEmptyDB with
  services := [exService]
  burn_history :=
    [{ service_id := 1, timestamp := -120, window_minutes := 60, burn_rate := 1 },
     { service_id := 1, timestamp := -60, window_minutes := 60, burn_rate := 101/100 },
     { service_id := 1, timestamp := 0, window_minutes := 60, burn_rate := 51/50 }] }

/-- The trend computed from `exTrendDB` at time 0. -/
def exTrendData : TrendData :=
  { slope := 1/100
    direction := "stable"
    confidence := "medium"
    r_squared := 1
    data_points := 3 }

/-- The forecast computed from `exTrendDB` at time 0. -/
def exForecast : ForecastResult :=
  { service_id := 1
    current_burn_rate := 0
    error_budget_remaining := 100
    time_to_exhaustion_hours := some 72000
    confidence_level := "medium"
    burn_rate_trend := "stable"
    trend_slope := 1/100 }

/-- A release request without override. -/
def exRequest : ReleaseCheckRequest :=
  { service_name := "svc"
    deployment_id := "d-1"
    version := none
    requested_by := none
    override := false
    override_reason := none }

/-- A release request with an override justification. -/
def exOverrideRequest : ReleaseCheckRequest :=
  { exRequest with override := true, override_reason := some "hotfix for CVE-2024-X" }

/-- A release request with an empty deployment id. -/
def exEmptyIdRequest : ReleaseCheckRequest := { exRequest with deployment_id := "" }

/-- A snapshot whose error count exceeds its request count. -/
def exBadSnapshot : MetricSnapshot :=
  { service := "payments"
    timestamp := 0
    total_requests := 2
    error_count := 5 }

/-- The service auto-created by ingesting `exBadSnapshot` into the empty store. -/
def exPaymentsService : Service := { id := 1, name := "payments", is_active := true }

/-- The metric row persisted for `exBadSnapshot`. -/
def exBadMetricRow : Metric :=
  { service_id := 1
    timestamp := 0
    total_requests := 2
    error_count := 5
    success_rate := some (-150) }

/-- A store already holding a burn_rate_high alert at time 0 for service 1,
tagged in `alert_metadata` as the spec intends rows to be tagged: per the
claim, a `create_alert` for the same type five minutes later must be
suppressed. -/
def exCooldownDB : DB := { exEmptyDB with
  services := [exService]
  alerts := [{ service_id := 1
               timestamp := 0
               severity := "warning"
               channel := "ui"
               title := "burn_rate_high"
               message := "burn_rate_high"
               alert_metadata := some "burn_rate_high" }] }

/-- A store whose metrics put the service at burn rate 3.0 with the budget
exhausted in the 60-minute window: both the budget_exhausted and the
burn_rate_high alert conditions of `evaluate_and_alert` hold. -/
def exHighBurnDB : DB := { exEmptyDB with
  services := [exService]
  metrics := [{ service_id := 1
                timestamp := 0
                total_requests := 100000
                error_count := 300
                success_rate := none }] }

/-! Helper lemmas. -/

theorem round_mono {a b : ℚ} (h : a ≤ b) : round a ≤ round b := by
  rw [round_eq, round_eq]
  exact Int.floor_mono (by linarith)

theorem roundTo_natCast (dp : Nat) (n : ℕ) : roundTo dp (n : ℚ) = n := by
  rw [roundTo]
  rw [show ((n : ℚ) * 10 ^ dp) = (((n * 10 ^ dp : ℕ) : ℤ) : ℚ) by push_cast; ring]
  rw [round_intCast]
  push_cast
  rw [mul_div_assoc, div_self (by positivity), mul_one]

theorem roundTo_zero (dp : Nat) : roundTo dp 0 = 0 := by
  simpa using roundTo_natCast dp 0

theorem roundTo_nonneg (dp : Nat) (q : ℚ) (h : 0 ≤ q) : 0 ≤ roundTo dp q := by
  rw [roundTo]
  apply div_nonneg _ (by positivity)
  have h1 : round (0 : ℚ) ≤ round (q * 10 ^ dp) := round_mono (by positivity)
  rw [round_zero] at h1
  exact_mod_cast h1

theorem roundTo_le_natCast (dp : Nat) (q : ℚ) (n : ℕ) (h : q ≤ (n : ℚ)) :
    roundTo dp q ≤ n := by
  rw [roundTo, div_le_iff₀ (by positivity)]
  have h1 : round (q * 10 ^ dp) ≤ round ((n : ℚ) * 10 ^ dp) :=
    round_mono (mul_le_mul_of_nonneg_right h (by positivity))
  have h2 : round ((n : ℚ) * 10 ^ dp) = ((n * 10 ^ dp : ℕ) : ℤ) := by
    rw [show ((n : ℚ) * 10 ^ dp) = (((n * 10 ^ dp : ℕ) : ℤ) : ℚ) by push_cast; ring]
    rw [round_intCast]
  rw [h2] at h1
  calc ((round (q * 10 ^ dp) : ℤ) : ℚ) ≤ (((n * 10 ^ dp : ℕ) : ℤ) : ℚ) := by
        exact_mod_cast h1
    _ = (n : ℚ) * 10 ^ dp := by push_cast; ring

theorem abs_roundTo_sub (dp : Nat) (q : ℚ) :
    |roundTo dp q - q| ≤ 1 / (2 * 10 ^ dp) := by
  have hp : (0 : ℚ) < 10 ^ dp := by positivity
  have h := abs_sub_round (q * 10 ^ dp)
  rw [roundTo]
  have heq : ((round (q * 10 ^ dp) : ℤ) : ℚ) / 10 ^ dp - q
      = -((q * 10 ^ dp - ((round (q * 10 ^ dp) : ℤ) : ℚ)) / 10 ^ dp) := by
    field_simp
    ring
  rw [heq, abs_neg, abs_div, abs_of_pos hp, div_le_div_iff₀ hp (by positivity)]
  calc |q * 10 ^ dp - ((round (q * 10 ^ dp) : ℤ) : ℚ)| * (2 * 10 ^ dp)
      ≤ (1 / 2) * (2 * 10 ^ dp) := mul_le_mul_of_nonneg_right h (by positivity)
    _ = 1 * 10 ^ dp := by ring

theorem consumed_remaining_spec (e budget : ℚ) (he : 0 ≤ e) (c r : ℚ)
    (hc : c = if budget > 0 then min (e / budget * 100) 100 else 0)
    (hr : r = if budget > 0 then max (100 - c) 0 else 100) :
    0 ≤ c ∧ c ≤ 100 ∧ r = 100 - c := by
  by_cases hb : budget > 0
  · subst hc
    subst hr
    simp only [if_pos hb]
    have h0 : 0 ≤ e / budget * 100 := by positivity
    refine ⟨le_min h0 (by norm_num), min_le_right _ _, ?_⟩
    have := min_le_right (e / budget * 100) (100 : ℚ)
    exact max_eq_left (by linarith)
  · subst hc
    subst hr
    simp only [if_neg hb]
    norm_num

theorem find_by_id_of_mem {db : DB} {svc : Service} (hmem : svc ∈ db.services) :
    ∃ s2, db.services.find? (fun s => s.id == svc.id) = some s2 := by
  have h : (db.services.find? (fun s => s.id == svc.id)).isSome :=
    List.find?_isSome.mpr ⟨svc, hmem, by simp⟩
  exact Option.isSome_iff_exists.mp h

theorem compute_burn_rate_ok (st : Settings) (now w : ℚ) {db : DB} {i : Nat}
    (h : ∃ s2, db.services.find? (fun s => s.id == i) = some s2) :
    ∃ c, compute_burn_rate st db now i w = Except.ok c := by
  obtain ⟨s2, h2⟩ := h
  unfold compute_burn_rate
  rw [h2]
  exact ⟨_, rfl⟩

theorem get_weighted_burn_rate_ok (st : Settings) (now : ℚ) {db : DB} {i : Nat}
    (h : ∃ s2, db.services.find? (fun s => s.id == i) = some s2) :
    ∃ wb risk, get_weighted_burn_rate st db now i = Except.ok (wb, risk) := by
  obtain ⟨s2, h2⟩ := h
  unfold get_weighted_burn_rate
  rw [h2]
  exact ⟨_, _, rfl⟩

theorem forecast_exhaustion_ok (st : Settings) (now : ℚ) {db : DB} {i : Nat}
    (h : ∃ s2, db.services.find? (fun s => s.id == i) = some s2) :
    ∃ fc, forecast_exhaustion st db now i = Except.ok fc := by
  obtain ⟨s2, h2⟩ := h
  unfold forecast_exhaustion
  rw [h2]
  exact ⟨_, rfl⟩

theorem check_release_eq {st : Settings} {db : DB} {now : ℚ} {fresh : String}
    {req : ReleaseCheckRequest} {svc : Service} {bc : BurnRateComputation}
    {wb : ℚ} {risk : RiskLevel} {fc : ForecastResult}
    (hname : db.services.find? (fun s => s.name == req.service_name) = some svc)
    (hb : compute_burn_rate st db now svc.id 60 = Except.ok bc)
    (hw : get_weighted_burn_rate st db now svc.id = Except.ok (wb, risk))
    (hf : forecast_exhaustion st db now svc.id = Except.ok fc) :
    check_release st db now fresh req =
      ({ allowed := (evaluate_gate st wb risk bc.error_budget_remaining
           fc.time_to_exhaustion_hours req.override req.override_reason).1
         reason := (evaluate_gate st wb risk bc.error_budget_remaining
           fc.time_to_exhaustion_hours req.override req.override_reason).2.1
         service_name := svc.name
         deployment_id := req.deployment_id
         current_risk_level := risk
         current_burn_rate := wb
         error_budget_remaining := bc.error_budget_remaining
         time_to_exhaustion_hours := fc.time_to_exhaustion_hours
         recommendations := (evaluate_gate st wb risk bc.error_budget_remaining
           fc.time_to_exhaustion_hours req.override req.override_reason).2.2
         checked_by := req.requested_by.getD "system" },
       record_deployment db svc.id req.deployment_id req.version req.requested_by
         (evaluate_gate st wb risk bc.error_budget_remaining
           fc.time_to_exhaustion_hours req.override req.override_reason).1
         (evaluate_gate st wb risk bc.error_budget_remaining
           fc.time_to_exhaustion_hours req.override req.override_reason).2.1
         risk wb fresh) := by
  simp only [check_release, hname, hb, hw, hf]

theorem severity_spec_max (a b : RiskLevel) :
    risk_severity (spec_max_risk a b) = max (risk_severity a) (risk_severity b) := by
  unfold spec_max_risk
  split_ifs with h
  · omega
  · omega

theorem severity_level_by_burn_mono {b1 b2 : ℚ} (h : b1 ≤ b2) :
    risk_severity (spec_level_by_burn b1) ≤ risk_severity (spec_level_by_burn b2) := by
  unfold spec_level_by_burn
  split_ifs <;> simp [risk_severity] <;> linarith

theorem severity_level_by_budget_mono {c1 c2 : ℚ} (h : c1 ≤ c2) :
    risk_severity (spec_level_by_budget c1) ≤ risk_severity (spec_level_by_budget c2) := by
  unfold spec_level_by_budget
  split_ifs <;> simp [risk_severity] <;> linarith

theorem classify_risk_eq_spec_max (b c : ℚ) :
    classify_risk defaultSettings b c =
      spec_max_risk (spec_level_by_burn b) (spec_level_by_budget c) := by
  unfold classify_risk spec_max_risk spec_level_by_burn spec_level_by_budget
    defaultSettings
  rcases le_or_lt 3 b with h1 | h1 <;>
    rcases le_or_lt 2 b with h2 | h2 <;>
    rcases le_or_lt (3/2 : ℚ) b with h3 | h3 <;>
    rcases le_or_lt 95 c with h4 | h4 <;>
    rcases le_or_lt 85 c with h5 | h5 <;>
    rcases le_or_lt 70 c with h6 | h6 <;>
    simp_all [risk_severity, ge_iff_le, not_le.mpr]

/-- Claim C4: with the default cutoffs, the code's risk classification
equals the maximum of the per-dimension levels of the spec's table
(FREEZE at burn ≥ 3 or consumed ≥ 95, DANGER at ≥ 2 or ≥ 85, OBSERVE at
≥ 1.5 or ≥ 70, else SAFE), and it is monotone in both arguments. -/
theorem risk_classification_max_and_monotone :
    ∀ b c : ℚ, 0 ≤ b → 0 ≤ c → c ≤ 100 →
      (classify_risk defaultSettings b c =
        spec_max_risk (spec_level_by_burn b) (spec_level_by_budget c)) ∧
      (∀ b2 c2 : ℚ, b ≤ b2 → c ≤ c2 →
        risk_severity (classify_risk defaultSettings b c) ≤
          risk_severity (classify_risk defaultSettings b2 c2)) := by
  intro b c _ _ _
  refine ⟨classify_risk_eq_spec_max b c, ?_⟩
  intro b2 c2 hb hc
  rw [classify_risk_eq_spec_max b c, classify_risk_eq_spec_max b2 c2,
    severity_spec_max, severity_spec_max]
  exact max_le_max (severity_level_by_burn_mono hb) (severity_level_by_budget_mono hc)

/-- Witness for C4 at burn 2, consumed 0 against burn 3, consumed 50. -/
theorem risk_classification_max_and_monotone_witness :
    (classify_risk defaultSettings 2 0 =
      spec_max_risk (spec_level_by_burn 2) (spec_level_by_budget 0)) ∧
    risk_severity (classify_risk defaultSettings 2 0) ≤
      risk_severity (classify_risk defaultSettings 3 50) := by
  have h := risk_classification_max_and_monotone 2 0
    (by norm_num) (by norm_num) (by norm_num)
  exact ⟨h.1, h.2 3 50 (by norm_num) (by norm_num)⟩

/-- Claim C7: the forecast's time-to-exhaustion is
`(R / 100) * W / B` (rounded to 2 dp) when `B > 0` and `R > 0`, undefined
when `B ≤ 0` with `R > 0`, `0` when `R ≤ 0`, and in particular 180 hours
at `B = 2`, `R = 50`, `W = 720`. -/
theorem time_to_exhaustion_formula :
    (∀ B R W : ℚ,
      (0 < B → 0 < R →
        compute_time_to_exhaustion B R W = some (roundTo 2 (R / 100 * W / B))) ∧
      (B ≤ 0 → 0 < R → compute_time_to_exhaustion B R W = none) ∧
      (R ≤ 0 → compute_time_to_exhaustion B R W = some 0)) ∧
    compute_time_to_exhaustion 2 50 720 = some 180 := by
  constructor
  · intro B R W
    refine ⟨?_, ?_, ?_⟩
    · intro hB hR
      simp [compute_time_to_exhaustion, hB, hR]
    · intro hB hR
      simp only [compute_time_to_exhaustion]
      rw [if_neg (by intro h; linarith [h.1]), if_neg (by linarith)]
    · intro hR
      simp only [compute_time_to_exhaustion]
      rw [if_neg (by intro h; linarith [h.2]), if_pos hR]
  · norm_num [compute_time_to_exhaustion, roundTo, round_eq]

/-- Witness for C7 at `B = 2`, `R = 50`, `W = 720` and the degenerate inputs. -/
theorem time_to_exhaustion_formula_witness :
    compute_time_to_exhaustion 2 50 720 = some (roundTo 2 (50 / 100 * 720 / 2)) ∧
    compute_time_to_exhaustion 0 50 720 = none ∧
    compute_time_to_exhaustion 2 (-1) 720 = some 0 := by
  have h := time_to_exhaustion_formula.1 2 50 720
  have h2 := time_to_exhaustion_formula.1 0 50 720
  have h3 := (time_to_exhaustion_formula.1 2 (-1) 720).2.2 (by norm_num)
  exact ⟨h.1 (by norm_num) (by norm_num),
    h2.2.1 (by norm_num) (by norm_num), h3⟩

theorem rounded_pair_spec (e budget : ℚ) (he : 0 ≤ e) :
    0 ≤ roundTo 2 (if budget > 0 then min (e / budget * 100) 100 else 0) ∧
    roundTo 2 (if budget > 0 then min (e / budget * 100) 100 else 0) ≤ 100 ∧
    0 ≤ roundTo 2 (if budget > 0 then
      max (100 - (if budget > 0 then min (e / budget * 100) 100 else 0)) 0 else 100) ∧
    roundTo 2 (if budget > 0 then
      max (100 - (if budget > 0 then min (e / budget * 100) 100 else 0)) 0 else 100) ≤ 100 ∧
    |roundTo 2 (if budget > 0 then min (e / budget * 100) 100 else 0) +
      roundTo 2 (if budget > 0 then
        max (100 - (if budget > 0 then min (e / budget * 100) 100 else 0)) 0 else 100) -
      100| ≤ 1/100 := by
  obtain ⟨h0, h1, hR⟩ := consumed_remaining_spec e budget he
    (if budget > 0 then min (e / budget * 100) 100 else 0)
    (if budget > 0 then
      max (100 - (if budget > 0 then min (e / budget * 100) 100 else 0)) 0 else 100)
    rfl rfl
  set c := if budget > 0 then min (e / budget * 100) 100 else 0 with hc
  set r := if budget > 0 then
    max (100 - (if budget > 0 then min (e / budget * 100) 100 else 0)) 0 else 100 with hr
  have hr0 : 0 ≤ r := by rw [hR]; linarith
  have hr1 : r ≤ 100 := by rw [hR]; linarith
  refine ⟨roundTo_nonneg _ _ h0, ?_, roundTo_nonneg _ _ hr0, ?_, ?_⟩
  · simpa using roundTo_le_natCast 2 c 100 (by exact_mod_cast h1)
  · simpa using roundTo_le_natCast 2 r 100 (by exact_mod_cast hr1)
  · have h2 := abs_roundTo_sub 2 c
    have h3 := abs_roundTo_sub 2 r
    have h4 : roundTo 2 c + roundTo 2 r - 100 =
        (roundTo 2 c - c) + (roundTo 2 r - r) := by rw [hR]; ring
    rw [h4]
    calc |(roundTo 2 c - c) + (roundTo 2 r - r)|
        ≤ |roundTo 2 c - c| + |roundTo 2 r - r| := abs_add _ _
      _ ≤ 1 / (2 * 10 ^ 2) + 1 / (2 * 10 ^ 2) := add_le_add h2 h3
      _ ≤ 1/100 := by norm_num

theorem sum_error_nonneg {l : List Metric}
    (h : ∀ m ∈ l, 0 ≤ m.total_requests ∧ 0 ≤ m.error_count) :
    (0 : ℚ) ≤ (((l.map (fun m => m.error_count)).sum : ℤ) : ℚ) := by
  have hz : (0 : ℤ) ≤ (l.map (fun m => m.error_count)).sum := by
    apply List.sum_nonneg
    intro x hx
    obtain ⟨m, hm, rfl⟩ := List.mem_map.mp hx
    exact (h m hm).2
  exact_mod_cast hz

/-- Claim C5: for non-negative request and error totals, every burn-rate
computation and every single-target SLO computation reports
budget percentages in [0, 100] with consumed + remaining = 100 within
rounding (the two fields are rounded to 2 dp). -/
theorem budget_consumed_remaining_sum :
    ∀ (st : Settings) (db : DB) (now : ℚ) (service : Service)
      (slo : SLOTarget) (w : ℚ),
    (∀ m ∈ db.metrics, 0 ≤ m.total_requests ∧ 0 ≤ m.error_count) →
    (∀ c, c = compute_burn_rate_aux st db now service w →
      0 ≤ c.error_budget_consumed ∧ c.error_budget_consumed ≤ 100 ∧
      0 ≤ c.error_budget_remaining ∧ c.error_budget_remaining ≤ 100 ∧
      |c.error_budget_consumed + c.error_budget_remaining - 100| ≤ 1/100) ∧
    (∀ s, s = compute_single_slo db now service slo →
      0 ≤ s.consumed_percentage ∧ s.consumed_percentage ≤ 100 ∧
      0 ≤ s.remaining_percentage ∧ s.remaining_percentage ≤ 100 ∧
      |s.consumed_percentage + s.remaining_percentage - 100| ≤ 1/100) := by
  intro st db now service slo w hm
  constructor
  · intro c hc
    subst hc
    have he := sum_error_nonneg (l := metrics_in_window db now service.id w)
      (fun m hm2 => hm m (List.mem_of_mem_filter hm2))
    simp only [compute_burn_rate_aux]
    exact rounded_pair_spec _ _ he
  · intro s hs
    subst hs
    have he := sum_error_nonneg
      (l := db.metrics.filter (fun m =>
        m.service_id == service.id &&
        decide (now - (slo.window_days : ℚ) * 1440 ≤ m.timestamp) &&
        decide (m.timestamp ≤ now)))
      (fun m hm2 => hm m (List.mem_of_mem_filter hm2))
    simp only [compute_single_slo]
    exact rounded_pair_spec _ _ he

/-- Witness for C5 on the concrete store `exDangerDB`. -/
theorem budget_consumed_remaining_sum_witness :
    0 ≤ (compute_burn_rate_aux defaultSettings exDangerDB 0
      exService 60).error_budget_consumed ∧
    (compute_burn_rate_aux defaultSettings exDangerDB 0
      exService 60).error_budget_consumed ≤ 100 ∧
    0 ≤ (compute_burn_rate_aux defaultSettings exDangerDB 0
      exService 60).error_budget_remaining ∧
    (compute_burn_rate_aux defaultSettings exDangerDB 0
      exService 60).error_budget_remaining ≤ 100 ∧
    |(compute_burn_rate_aux defaultSettings exDangerDB 0
        exService 60).error_budget_consumed +
      (compute_burn_rate_aux defaultSettings exDangerDB 0
        exService 60).error_budget_remaining - 100| ≤ 1/100 := by
  exact (budget_consumed_remaining_sum defaultSettings exDangerDB 0 exService
    { service_id := 1, name := "availability", target_value := 999/10,
      window_days := 30, critical_burn_rate := 2, is_active := true } 60
    (by intro m hm; simp only [exDangerDB, exEmptyDB] at hm; fin_cases hm;
        norm_num)).1 _ rfl

/-- Claim C8: `compute_burn_rate` fails exactly when the service id is
absent; a service with zero metrics in the window is not an error and
yields the neutral result (burn 0, error rate 0, consumed 0,
remaining 100, risk SAFE). -/
theorem compute_burn_rate_errors_iff_unknown_service :
    ∀ (db : DB) (now w : ℚ) (i : Nat),
      (db.services.find? (fun s => s.id == i) = none →
        compute_burn_rate defaultSettings db now i w =
          Except.error ("Service " ++ toString i ++ " not found")) ∧
      (∀ svc, db.services.find? (fun s => s.id == i) = some svc →
        compute_burn_rate defaultSettings db now i w =
          Except.ok (compute_burn_rate_aux defaultSettings db now svc w)) ∧
      (∀ svc, db.services.find? (fun s => s.id == i) = some svc →
        metrics_in_window db now svc.id w = [] →
        (compute_burn_rate_aux defaultSettings db now svc w).burn_rate = 0 ∧
        (compute_burn_rate_aux defaultSettings db now svc w).current_error_rate = 0 ∧
        (compute_burn_rate_aux defaultSettings db now svc w).error_budget_consumed = 0 ∧
        (compute_burn_rate_aux defaultSettings db now svc w).error_budget_remaining = 100 ∧
        (compute_burn_rate_aux defaultSettings db now svc w).risk_level = RiskLevel.safe) := by
  intro db now w i
  refine ⟨?_, ?_, ?_⟩
  · intro h
    unfold compute_burn_rate
    rw [h]
  · intro svc h
    unfold compute_burn_rate
    rw [h]
  · intro svc h hempty
    simp only [compute_burn_rate_aux, hempty, List.map_nil, List.sum_nil]
    norm_num [roundTo_zero, classify_risk, defaultSettings]
    simpa using roundTo_natCast 2 100

/-- Witness for C8: service 1 exists in `exServiceDB` with no metrics,
and is absent from the empty store. -/
theorem compute_burn_rate_errors_iff_unknown_service_witness :
    compute_burn_rate defaultSettings exServiceDB 0 1 60 =
      Except.ok (compute_burn_rate_aux defaultSettings exServiceDB 0 exService 60) ∧
    (compute_burn_rate_aux defaultSettings exServiceDB 0 exService 60).burn_rate = 0 ∧
    (compute_burn_rate_aux defaultSettings exServiceDB 0 exService 60).risk_level =
      RiskLevel.safe ∧
    compute_burn_rate defaultSettings exEmptyDB 0 1 60 =
      Except.error ("Service " ++ toString 1 ++ " not found") := by
  have h := compute_burn_rate_errors_iff_unknown_service exServiceDB 0 60 1
  have h2 := compute_burn_rate_errors_iff_unknown_service exEmptyDB 0 60 1
  have hfind : exServiceDB.services.find? (fun s => s.id == 1) = some exService := by
    rfl
  have hneutral := h.2.2 exService hfind (by rfl)
  exact ⟨h.2.1 exService hfind, hneutral.1, hneutral.2.2.2.2, h2.1 (by rfl)⟩

/-- Counterexample to claim C6: at `exTrendDB` the least-squares slope is
0.01, so the computed direction is "stable"; yet the forecast still uses the
trend-adjusted rate B + m = 0 + 0.01, projecting 72000 hours to exhaustion,
where using B = 0 unchanged (as the claim demands for a non-increasing
direction) would leave the time-to-exhaustion undefined. -/
theorem forecast_stable_trend_adjusts_burn :
    calculate_trend exTrendDB 0 1 = some exTrendData ∧
    exTrendData.direction = "stable" ∧
    (0 : ℚ) < exTrendData.slope ∧ exTrendData.slope ≤ 1/10 ∧
    burn_rate_for_forecast 0 (calculate_trend exTrendDB 0 1) = 1/100 ∧
    forecast_exhaustion defaultSettings exTrendDB 0 1 = Except.ok exForecast ∧
    exForecast.current_burn_rate = 0 ∧
    exForecast.burn_rate_trend = "stable" ∧
    exForecast.time_to_exhaustion_hours = some 72000 := by
  have htrend : calculate_trend exTrendDB 0 1 = some exTrendData := by
    norm_num [calculate_trend, trend_history, sortByTimestamp, insertSorted,
      exTrendDB, exEmptyDB, exTrendData]
  refine ⟨htrend, rfl, by norm_num [exTrendData], by norm_num [exTrendData],
    ?_, ?_, rfl, rfl, rfl⟩
  · rw [htrend]
    norm_num [burn_rate_for_forecast, exTrendData]
  · norm_num [forecast_exhaustion, calculate_trend, trend_history, sortByTimestamp,
      insertSorted, exTrendDB, exEmptyDB, exService, compute_burn_rate_aux,
      metrics_in_window, defaultSettings, roundTo, classify_risk, round_eq,
      burn_rate_for_forecast, compute_time_to_exhaustion, exForecast]

/-- Claim C6 as amended: the forecast uses the trend-adjusted burn rate
B + m exactly when the least-squares slope m is positive — including slopes
in (0, 0.1] whose direction is classified "stable" — and uses B unchanged
when m ≤ 0 or fewer than 3 history points exist; the direction is
"increasing" exactly when m > 0.1. -/
theorem forecast_trend_adjustment_iff_positive_slope :
    (∀ (r : ℚ) (t : TrendData),
      (0 < t.slope → burn_rate_for_forecast r (some t) = r + t.slope) ∧
      (t.slope ≤ 0 → burn_rate_for_forecast r (some t) = r)) ∧
    (∀ r : ℚ, burn_rate_for_forecast r none = r) ∧
    (∀ (db : DB) (now : ℚ) (i : Nat) (t : TrendData),
      calculate_trend db now i = some t →
      (t.direction = "increasing" ↔ 1/10 < t.slope)) := by
  refine ⟨?_, fun r => rfl, ?_⟩
  · intro r t
    constructor
    · intro h
      simp [burn_rate_for_forecast, h]
    · intro h
      simp [burn_rate_for_forecast, not_lt.mpr h]
  · intro db now i t h
    simp only [calculate_trend] at h
    split at h
    · exact absurd h (by simp)
    · have ht := Option.some.inj h
      subst ht
      simp only []
      split_ifs with h1 h2
      · simpa using h1
      · constructor
        · intro hs
          exact absurd hs (by decide)
        · intro hs
          linarith
      · constructor
        · intro hs
          exact absurd hs (by decide)
        · intro hs
          push_neg at h1
          linarith

/-- Witness for C6 as amended, at the concrete trend of `exTrendDB`. -/
theorem forecast_trend_adjustment_iff_positive_slope_witness :
    burn_rate_for_forecast 0 (some exTrendData) = 0 + exTrendData.slope ∧
    burn_rate_for_forecast (1/2) none = 1/2 ∧
    (exTrendData.direction = "increasing" ↔ 1/10 < exTrendData.slope) := by
  have h := forecast_trend_adjustment_iff_positive_slope
  refine ⟨(h.1 0 exTrendData).1 (by norm_num [exTrendData]), h.2.1 (1/2), ?_⟩
  apply h.2.2 exTrendDB 0 1
  norm_num [calculate_trend, trend_history, sortByTimestamp, insertSorted,
    exTrendDB, exEmptyDB, exTrendData]

/-- Counterexample to claim C9: the snapshot `exBadSnapshot` has
error_count 5 > total_requests 2 and names a service absent from the store,
yet it passes schema validation and ingestion persists its metric row
(with a negative success rate), auto-creating the service instead of
surfacing an error; the batch reports 1 processed, 0 errors. -/
theorem ingest_accepts_errors_exceeding_requests :
    validate_snapshot exBadSnapshot = true ∧
    exBadSnapshot.error_count > exBadSnapshot.total_requests ∧
    exEmptyDB.services.find? (fun s => s.name == exBadSnapshot.service) = none ∧
    (ingest_metrics exEmptyDB [exBadSnapshot]).1.metrics = [exBadMetricRow] ∧
    exBadMetricRow.error_count > exBadMetricRow.total_requests ∧
    (ingest_metrics exEmptyDB [exBadSnapshot]).1.services = [exPaymentsService] ∧
    (ingest_metrics exEmptyDB [exBadSnapshot]).2.1 = 1 ∧
    (ingest_metrics exEmptyDB [exBadSnapshot]).2.2 = 0 := by
  refine ⟨by decide, by decide, by rfl, ?_, by decide, ?_, by rfl, by rfl⟩
  · norm_num [ingest_metrics, ingest_one, next_service_id, exEmptyDB,
      exBadSnapshot, exBadMetricRow]
  · norm_num [ingest_metrics, ingest_one, next_service_id, exEmptyDB,
      exBadSnapshot, exPaymentsService]

theorem ingest_one_metrics (db : DB) (m : MetricSnapshot) :
    ∃ sid srate, (ingest_one db m).metrics = db.metrics ++
      [{ service_id := sid
         timestamp := m.timestamp
         total_requests := m.total_requests
         error_count := m.error_count
         success_rate := srate }] := by
  unfold ingest_one
  cases h : db.services.find? (fun s => s.name == m.service) with
  | none =>
    refine ⟨next_service_id db,
      if m.total_requests > 0 then
        some (((m.total_requests : ℚ) - (m.error_count : ℚ)) /
          (m.total_requests : ℚ) * 100)
      else none, ?_⟩
    simp [h]
  | some s =>
    refine ⟨s.id,
      if m.total_requests > 0 then
        some (((m.total_requests : ℚ) - (m.error_count : ℚ)) /
          (m.total_requests : ℚ) * 100)
      else none, ?_⟩
    simp [h]

theorem ingest_fold_metrics (ms : List MetricSnapshot) :
    ∀ acc : DB × Nat × Nat, (∀ m ∈ ms, validate_snapshot m = true) →
    ∀ row ∈ (ms.foldl
        (fun acc m => (ingest_one acc.1 m, acc.2.1 + 1, acc.2.2)) acc).1.metrics,
      row ∈ acc.1.metrics ∨ (0 ≤ row.total_requests ∧ 0 ≤ row.error_count) := by
  induction ms with
  | nil =>
    intro acc _ row hrow
    exact Or.inl hrow
  | cons m rest ih =>
    intro acc hval row hrow
    simp only [List.foldl_cons] at hrow
    have step := ih (ingest_one acc.1 m, acc.2.1 + 1, acc.2.2)
      (fun x hx => hval x (List.mem_cons_of_mem _ hx)) row hrow
    rcases step with h | h
    · obtain ⟨sid, srate, hmet⟩ := ingest_one_metrics acc.1 m
      rw [hmet] at h
      rcases List.mem_append.mp h with h2 | h2
      · exact Or.inl h2
      · have hm := hval m (List.mem_cons_self m rest)
        simp only [validate_snapshot, Bool.and_eq_true, decide_eq_true_eq] at hm
        have hrow2 := List.mem_singleton.mp h2
        subst hrow2
        exact Or.inr ⟨hm.1, hm.2⟩
    · exact Or.inr h

/-- Claim C9 as amended: schema validation rejects exactly the snapshots
with a negative total_requests or error_count; a validated batch may still
carry error_count > total_requests, and an unknown service name is
auto-created rather than rejected, so every metric row ingestion persists
satisfies only 0 ≤ total_requests and 0 ≤ error_count. -/
theorem ingest_validation_amended :
    (∀ m : MetricSnapshot, validate_snapshot m = true ↔
      0 ≤ m.total_requests ∧ 0 ≤ m.error_count) ∧
    (∀ (db : DB) (ms : List MetricSnapshot),
      (∀ m ∈ ms, validate_snapshot m = true) →
      ∀ row ∈ (ingest_metrics db ms).1.metrics,
        row ∈ db.metrics ∨ (0 ≤ row.total_requests ∧ 0 ≤ row.error_count)) := by
  constructor
  · intro m
    simp [validate_snapshot]
  · intro db ms hval row hrow
    exact ingest_fold_metrics ms (db, 0, 0) hval row hrow

/-- Witness for C9 as amended, on the concrete bad snapshot. -/
theorem ingest_validation_amended_witness :
    (validate_snapshot exBadSnapshot = true ↔
      0 ≤ exBadSnapshot.total_requests ∧ 0 ≤ exBadSnapshot.error_count) ∧
    (∀ row ∈ (ingest_metrics exEmptyDB [exBadSnapshot]).1.metrics,
      row ∈ exEmptyDB.metrics ∨ (0 ≤ row.total_requests ∧ 0 ≤ row.error_count)) := by
  refine ⟨ingest_validation_amended.1 exBadSnapshot,
    ingest_validation_amended.2 exEmptyDB [exBadSnapshot] ?_⟩
  intro m hm
  rw [List.mem_singleton.mp hm]
  decide

theorem evaluate_gate_freeze_override (st : Settings) (b rem : ℚ)
    (tte : Option ℚ) (r : String) (hr : r ≠ "") :
    evaluate_gate st b RiskLevel.freeze rem tte true (some r) =
      (true, "OVERRIDE: Deployment allowed despite FREEZE state. Reason: " ++ r,
       ["Deployment approved via override - monitor closely"]) := by
  simp [evaluate_gate, hr]

theorem evaluate_gate_danger_override (st : Settings) (b rem : ℚ)
    (tte : Option ℚ) (r : String) (hr : r ≠ "") :
    evaluate_gate st b RiskLevel.danger rem tte true (some r) =
      (true, "OVERRIDE: Deployment allowed despite DANGER state. Reason: " ++ r,
       ["System is in DANGER state - consider waiting",
        "Monitor deployment closely and be ready to rollback"]) := by
  simp [evaluate_gate, hr]

theorem evaluate_gate_no_override_blocks (st : Settings) (b rem : ℚ)
    (tte : Option ℚ) {risk : RiskLevel}
    (hrisk : risk = RiskLevel.freeze ∨ risk = RiskLevel.danger)
    (ov : Bool) (orr : Option String)
    (hno : ov = false ∨ orr = none ∨ orr = some "") :
    (evaluate_gate st b risk rem tte ov orr).1 = false := by
  rcases hrisk with h | h <;> subst h <;>
    rcases hno with h2 | h2 | h2 <;> subst h2 <;> simp [evaluate_gate]

theorem evaluate_gate_burn_blocks (st : Settings) (b rem : ℚ)
    {risk : RiskLevel} (tte : Option ℚ) (ov : Bool) (orr : Option String)
    (hrisk : risk = RiskLevel.safe ∨ risk = RiskLevel.observe)
    (hb : b > st.RELEASE_GATE_BURN_RATE_THRESHOLD) :
    (evaluate_gate st b risk rem tte ov orr).1 = false := by
  rcases hrisk with h | h <;> subst h <;>
    simp [evaluate_gate, hb,
      (by decide : (RiskLevel.safe : RiskLevel) ≠ RiskLevel.freeze),
      (by decide : (RiskLevel.safe : RiskLevel) ≠ RiskLevel.danger),
      (by decide : (RiskLevel.observe : RiskLevel) ≠ RiskLevel.freeze),
      (by decide : (RiskLevel.observe : RiskLevel) ≠ RiskLevel.danger)]

/-- Counterexample to claim C1: a check_release call whose service name
matches no registered service returns a blocked response but persists no
Deployment row at all — the store comes back unchanged — contradicting
"exactly one Deployment record per call, including service-unknown". -/
theorem release_gate_unknown_service_persists_nothing :
    (check_release defaultSettings exEmptyDB 0 "fresh-id" exRequest).2 = exEmptyDB ∧
    ((check_release defaultSettings exEmptyDB 0 "fresh-id" exRequest).2).deployments = [] ∧
    (check_release defaultSettings exEmptyDB 0 "fresh-id" exRequest).1.allowed = false := by
  refine ⟨?_, ?_, ?_⟩ <;>
    simp [check_release, exEmptyDB, exRequest, service_not_found_response]

/-- Claim C1 as amended: every check_release call on a registered service
persists exactly one Deployment row, with status "approved" iff the
response's allowed flag is true, and blocked_reason equal to the decision
reason when blocked and none when allowed; a call naming an unknown
service persists nothing and returns a blocked response. -/
theorem release_gate_persists_one_deployment :
    ∀ (st : Settings) (db : DB) (now : ℚ) (fresh : String)
      (req : ReleaseCheckRequest),
    (∀ svc, db.services.find? (fun s => s.name == req.service_name) = some svc →
      ∃ d, ((check_release st db now fresh req).2).deployments =
          db.deployments ++ [d] ∧
        d.allowed = (check_release st db now fresh req).1.allowed ∧
        (d.status = "approved" ↔
          (check_release st db now fresh req).1.allowed = true) ∧
        (d.status = "approved" ∨ d.status = "rejected") ∧
        d.blocked_reason = (if (check_release st db now fresh req).1.allowed
          then none else some ((check_release st db now fresh req).1.reason))) ∧
    (db.services.find? (fun s => s.name == req.service_name) = none →
      (check_release st db now fresh req).2 = db ∧
      (check_release st db now fresh req).1.allowed = false) := by
  intro st db now fresh req
  constructor
  · intro svc hname
    have hid := find_by_id_of_mem (List.mem_of_find?_eq_some hname)
    obtain ⟨bc, hb⟩ := compute_burn_rate_ok st now 60 hid
    obtain ⟨wb, risk, hw⟩ := get_weighted_burn_rate_ok st now hid
    obtain ⟨fc, hf⟩ := forecast_exhaustion_ok st now hid
    rw [check_release_eq hname hb hw hf]
    set G := evaluate_gate st wb risk bc.error_budget_remaining
      fc.time_to_exhaustion_hours req.override req.override_reason with hG
    simp only [record_deployment]
    refine ⟨_, rfl, rfl, ?_, ?_, rfl⟩
    · cases hg : G.1 <;> simp [hg]
    · cases hg : G.1 <;> simp [hg]
  · intro hnone
    constructor <;> simp [check_release, hnone, service_not_found_response]

/-- Witness for C1 at a registered service with no data and at the empty
store. -/
theorem release_gate_persists_one_deployment_witness :
    (∃ d, ((check_release defaultSettings exServiceDB 0 "uuid-1" exRequest).2).deployments =
        exServiceDB.deployments ++ [d] ∧
      d.allowed = (check_release defaultSettings exServiceDB 0 "uuid-1" exRequest).1.allowed ∧
      (d.status = "approved" ↔
        (check_release defaultSettings exServiceDB 0 "uuid-1" exRequest).1.allowed = true) ∧
      (d.status = "approved" ∨ d.status = "rejected") ∧
      d.blocked_reason = (if (check_release defaultSettings exServiceDB 0 "uuid-1" exRequest).1.allowed
        then none else some ((check_release defaultSettings exServiceDB 0 "uuid-1" exRequest).1.reason))) ∧
    (check_release defaultSettings exEmptyDB 0 "uuid-1" exRequest).2 = exEmptyDB ∧
    (check_release defaultSettings exEmptyDB 0 "uuid-1" exRequest).1.allowed = false := by
  refine ⟨(release_gate_persists_one_deployment defaultSettings exServiceDB 0
    "uuid-1" exRequest).1 exService ?_,
    (release_gate_persists_one_deployment defaultSettings exEmptyDB 0
      "uuid-1" exRequest).2 ?_⟩
  · rfl
  · rfl

/-- Claim C2: on an existing service, composite risk FREEZE or DANGER with
override and a non-empty override reason yields an allowed decision whose
reason is prefixed "OVERRIDE:"; without override (or with an empty reason)
FREEZE and DANGER both block; and a block from the weighted burn rate
exceeding the release-gate threshold holds for every override value. -/
theorem release_gate_override_semantics :
    (∀ (st : Settings) (db : DB) (now : ℚ) (fresh : String)
       (req : ReleaseCheckRequest) (svc : Service) (wb : ℚ) (risk : RiskLevel),
      db.services.find? (fun s => s.name == req.service_name) = some svc →
      get_weighted_burn_rate st db now svc.id = Except.ok (wb, risk) →
      (risk = RiskLevel.freeze ∨ risk = RiskLevel.danger) →
      ((∀ r : String, req.override = true → req.override_reason = some r → r ≠ "" →
        (check_release st db now fresh req).1.allowed = true ∧
        ∃ s, (check_release st db now fresh req).1.reason = "OVERRIDE:" ++ s) ∧
       ((req.override = false ∨ req.override_reason = none ∨
          req.override_reason = some "") →
        (check_release st db now fresh req).1.allowed = false))) ∧
    (∀ (st : Settings) (b rem : ℚ) (risk : RiskLevel) (tte : Option ℚ)
       (ov : Bool) (orr : Option String),
      (risk = RiskLevel.safe ∨ risk = RiskLevel.observe) →
      b > st.RELEASE_GATE_BURN_RATE_THRESHOLD →
      (evaluate_gate st b risk rem tte ov orr).1 = false) := by
  constructor
  · intro st db now fresh req svc wb risk hname hw hrisk
    have hid := find_by_id_of_mem (List.mem_of_find?_eq_some hname)
    obtain ⟨bc, hb⟩ := compute_burn_rate_ok st now 60 hid
    obtain ⟨fc, hf⟩ := forecast_exhaustion_ok st now hid
    rw [check_release_eq hname hb hw hf]
    constructor
    · intro r hov hor hr
      rw [hov, hor]
      rcases hrisk with h | h <;> subst h
      · rw [evaluate_gate_freeze_override st wb bc.error_budget_remaining
          fc.time_to_exhaustion_hours r hr]
        refine ⟨rfl, " Deployment allowed despite FREEZE state. Reason: " ++ r, ?_⟩
        show "OVERRIDE: Deployment allowed despite FREEZE state. Reason: " ++ r =
          "OVERRIDE:" ++ (" Deployment allowed despite FREEZE state. Reason: " ++ r)
        rw [← String.append_assoc]
        rfl
      · rw [evaluate_gate_danger_override st wb bc.error_budget_remaining
          fc.time_to_exhaustion_hours r hr]
        refine ⟨rfl, " Deployment allowed despite DANGER state. Reason: " ++ r, ?_⟩
        show "OVERRIDE: Deployment allowed despite DANGER state. Reason: " ++ r =
          "OVERRIDE:" ++ (" Deployment allowed despite DANGER state. Reason: " ++ r)
        rw [← String.append_assoc]
        rfl
    · intro hno
      exact evaluate_gate_no_override_blocks st wb bc.error_budget_remaining
        fc.time_to_exhaustion_hours hrisk req.override req.override_reason hno
  · intro st b rem risk tte ov orr hrisk hb
    exact evaluate_gate_burn_blocks st b rem tte ov orr hrisk hb

/-- Witness for C2 on the concrete DANGER-state store `exDangerDB` with
and without an override, plus the burn-threshold block at gate level. -/
theorem release_gate_override_semantics_witness :
    (check_release defaultSettings exDangerDB 0 "uuid-2" exOverrideRequest).1.allowed = true ∧
    (∃ s, (check_release defaultSettings exDangerDB 0 "uuid-2"
      exOverrideRequest).1.reason = "OVERRIDE:" ++ s) ∧
    (check_release defaultSettings exDangerDB 0 "uuid-2" exRequest).1.allowed = false ∧
    (evaluate_gate defaultSettings 3 RiskLevel.safe 100 none true (some "x")).1 = false := by
  have hw : get_weighted_burn_rate defaultSettings exDangerDB 0 exService.id =
      Except.ok (9/10, RiskLevel.danger) := by
    norm_num [get_weighted_burn_rate, compute_all_windows, WINDOW_CONFIGS,
      compute_burn_rate_aux, metrics_in_window, exDangerDB, exEmptyDB, exService,
      defaultSettings, roundTo, classify_risk, round_eq, risk_severity]
  have h1 := (release_gate_override_semantics.1 defaultSettings exDangerDB 0
    "uuid-2" exOverrideRequest exService (9/10) RiskLevel.danger rfl hw
    (Or.inr rfl)).1 "hotfix for CVE-2024-X" rfl rfl (by decide)
  have h2 := (release_gate_override_semantics.1 defaultSettings exDangerDB 0
    "uuid-2" exRequest exService (9/10) RiskLevel.danger rfl hw
    (Or.inr rfl)).2 (Or.inl rfl)
  have h3 := release_gate_override_semantics.2 defaultSettings 3 100
    RiskLevel.safe none true (some "x") (Or.inl rfl) (by norm_num [defaultSettings])
  exact ⟨h1.1, h1.2, h2, h3⟩

/-- Claim C10: every Deployment row written for a registered service has a
non-empty deployment_id — an empty request id is replaced by the freshly
generated UUID string — while the response echoes the request's original
deployment_id. -/
theorem deployment_id_nonempty :
    ∀ (st : Settings) (db : DB) (now : ℚ) (fresh : String)
      (req : ReleaseCheckRequest) (svc : Service),
    fresh ≠ "" →
    db.services.find? (fun s => s.name == req.service_name) = some svc →
    ∃ d, ((check_release st db now fresh req).2).deployments =
        db.deployments ++ [d] ∧
      d.deployment_id ≠ "" ∧
      (req.deployment_id = "" → d.deployment_id = fresh) ∧
      (req.deployment_id ≠ "" → d.deployment_id = req.deployment_id) ∧
      (check_release st db now fresh req).1.deployment_id = req.deployment_id := by
  intro st db now fresh req svc hfresh hname
  have hid := find_by_id_of_mem (List.mem_of_find?_eq_some hname)
  obtain ⟨bc, hb⟩ := compute_burn_rate_ok st now 60 hid
  obtain ⟨wb, risk, hw⟩ := get_weighted_burn_rate_ok st now hid
  obtain ⟨fc, hf⟩ := forecast_exhaustion_ok st now hid
  rw [check_release_eq hname hb hw hf]
  simp only [record_deployment]
  refine ⟨_, rfl, ?_, ?_, ?_, trivial⟩
  · by_cases h : req.deployment_id = "" <;> simp [h, hfresh]
  · intro h
    simp [h]
  · intro h
    simp [h]

/-- Witness for C10 with an empty request deployment id and a UUID-style
fresh id. -/
theorem deployment_id_nonempty_witness :
    ∃ d, ((check_release defaultSettings exServiceDB 0
        "3f2504e0-4f89-11d3-9a0c-0305e82c3301" exEmptyIdRequest).2).deployments =
      exServiceDB.deployments ++ [d] ∧
      d.deployment_id ≠ "" ∧
      (exEmptyIdRequest.deployment_id = "" →
        d.deployment_id = "3f2504e0-4f89-11d3-9a0c-0305e82c3301") ∧
      (exEmptyIdRequest.deployment_id ≠ "" →
        d.deployment_id = exEmptyIdRequest.deployment_id) ∧
      (check_release defaultSettings exServiceDB 0
        "3f2504e0-4f89-11d3-9a0c-0305e82c3301" exEmptyIdRequest).1.deployment_id =
        exEmptyIdRequest.deployment_id := by
  exact deployment_id_nonempty defaultSettings exServiceDB 0
    "3f2504e0-4f89-11d3-9a0c-0305e82c3301" exEmptyIdRequest exService
    (by decide) rfl

/-- Claim C3 is the code bug finding: the cooldown mechanism does not
exist in the code.  On a store already holding a five-minute-old
burn_rate_high alert for the service — which the claim says makes the next
`create_alert` return null — the call instead raises the AttributeError
from `_is_in_cooldown` (the query probes `Alert.metadata`, the declarative
MetaData registry, not the `alert_metadata` column); and under
alert-worthy conditions (burn rate 3.0, budget exhausted)
`evaluate_and_alert` swallows that error and persists nothing: any number
of calls leaves zero alerts, never the claimed one. -/
theorem alert_cooldown_broken_in_code :
    is_in_cooldown defaultSettings exCooldownDB 5 1 "burn_rate_high" =
      Except.error "AttributeError: MetaData object has no attribute contains" ∧
    create_alert defaultSettings exCooldownDB 5 1 "burn_rate_high" "ui" =
      Except.error "AttributeError: MetaData object has no attribute contains" ∧
    evaluate_and_alert defaultSettings exHighBurnDB 0 1 = (exHighBurnDB, []) ∧
    count_alerts (run_alert_calls defaultSettings exHighBurnDB [0, 5, 10] 1) 1
      "burn_rate_high" = 0 ∧
    count_alerts (run_alert_calls defaultSettings exHighBurnDB [0, 5, 10] 1) 1
      "budget_exhausted" = 0 := by
  refine ⟨rfl, rfl, ?_, ?_, ?_⟩
  · norm_num [evaluate_and_alert, create_step, create_alert,
      (by decide : template_severity "budget_exhausted" = some "emergency"),
      (by decide : template_severity "burn_rate_high" = some "warning"),
      is_in_cooldown, compute_burn_rate, compute_burn_rate_aux,
      metrics_in_window, exHighBurnDB, exEmptyDB, exService, defaultSettings,
      roundTo, classify_risk, round_eq]
  · norm_num [run_alert_calls, count_alerts, evaluate_and_alert, create_step,
      create_alert,
      (by decide : template_severity "budget_exhausted" = some "emergency"),
      (by decide : template_severity "burn_rate_high" = some "warning"),
      is_in_cooldown, compute_burn_rate, compute_burn_rate_aux,
      metrics_in_window, exHighBurnDB, exEmptyDB, exService, defaultSettings,
      roundTo, classify_risk, round_eq]
  · norm_num [run_alert_calls, count_alerts, evaluate_and_alert, create_step,
      create_alert,
      (by decide : template_severity "budget_exhausted" = some "emergency"),
      (by decide : template_severity "burn_rate_high" = some "warning"),
      is_in_cooldown, compute_burn_rate, compute_burn_rate_aux,
      metrics_in_window, exHighBurnDB, exEmptyDB, exService, defaultSettings,
      roundTo, classify_risk, round_eq]


end Reliability
